import Mathlib

/-!
Shallow embedding of the Semantic Movie Recommendation System pipeline
(`app.py`, the Streamlit demo variant, and `tempCodeRunnerFile.py`, the
batch-ingestion variant) together with proofs about the claims of its
specification.

Modelling conventions:
* Python/JSON values decoded by `json.loads` are modelled by the inductive
  type `Json`.  The external decoder `json.loads` itself is a black box,
  so it enters every definition as an explicit parameter
  `decode : String → Option Json`, where `none` models a raised
  `json.JSONDecodeError`/`TypeError`.
* Python exceptions that a function catches are modelled by `Option`:
  a `none` intermediate result models a raised and caught exception.
* pandas missing values (`NaN`) are modelled by `Option`: a cell that may
  be missing has type `Option _` with `none` for `NaN`/`None`.
* Python floats (ratings, vector components) are modelled by `Rat`.
-/

/-- JSON values as produced by `json.loads`: null, booleans, numbers,
strings, arrays and objects (objects keep the key/value list; lookup is
last-wins, matching Python dict construction from repeated keys). -/
inductive Json where
  | null
  | bool (b : Bool)
  | num (q : Rat)
  | str (s : String)
  | arr (elems : List Json)
  | obj (fields : List (String × Json))

/-- Lookup of a key in a decoded JSON object; last binding wins, as in a
Python dict built by `json.loads`.  `none` models a `KeyError`. -/
def jsonLookup (kvs : List (String × Json)) (k : String) : Option Json :=
  (kvs.reverse.find? (fun kv => kv.1 == k)).map (·.2)

/-- Python `item[key]` with a string key: succeeds only on a dict whose
keys include `key`.  `none` models the `TypeError` raised by indexing a
non-dict with a string, or the `KeyError` of a missing key. -/
def pyGetItemStr (key : String) : Json → Option Json
  | Json.obj kvs => jsonLookup kvs key
  | _ => none

/-- Python iteration `for item in data`: lists yield their elements,
strings their one-character substrings, dicts their keys; `none` models
the `TypeError` raised when iterating null, a bool or a number. -/
def pyIterate : Json → Option (List Json)
  | Json.arr xs => some xs
  | Json.str s => some (s.data.map (fun c => Json.str (String.mk [c])))
  | Json.obj kvs => some (kvs.map (fun kv => Json.str kv.1))
  | _ => none

/-- Python list comprehension `[item[key] for item in items]`: evaluated
left to right, aborting (`none`) at the first `TypeError`/`KeyError`. -/
def pyExtractAll (key : String) : List Json → Option (List Json)
  | [] => some []
  | item :: rest =>
    match pyGetItemStr key item with
    | none => none
    | some v => (pyExtractAll key rest).map (v :: ·)

/-- Python truthiness of a decoded JSON value (`if name` in a filter). -/
def pyTruthy : Json → Bool
  | Json.null => false
  | Json.bool b => b
  | Json.num q => q != 0
  | Json.str s => !s.isEmpty
  | Json.arr xs => !xs.isEmpty
  | Json.obj kvs => !kvs.isEmpty

/-- `parse_json_field` from `app.py` lines 27–33 (identical in
`tempCodeRunnerFile.py` lines 18–24):

    try:
        data = json.loads(data_str)
        return [item['name'] for item in data]
    except (json.JSONDecodeError, TypeError, KeyError):
        return []

Every caught exception path returns `[]`. -/
def parse_json_field (decode : String → Option Json) (data_str : String) :
    List Json :=
  match decode data_str with
  | none => []
  | some data =>
    match pyIterate data with
    | none => []
    | some items =>
      match pyExtractAll "name" items with
      | none => []
      | some names => names

/-- Applying `parse_json_field` to a DataFrame cell that may be `NaN`:
`json.loads(nan)` raises `TypeError`, which the function catches,
returning `[]`. -/
def parse_json_field_cell (decode : String → Option Json) :
    Option String → List Json
  | none => []
  | some s => parse_json_field decode s

/-- Python slicing-then-iteration `for item in data[:m]`: lists and
strings support slicing; `none` models the `TypeError` of slicing a
dict, null, bool or number. -/
def pySliceIter : Json → Nat → Option (List Json)
  | Json.arr xs, m => some (xs.take m)
  | Json.str s, m => some ((s.data.take m).map (fun c => Json.str (String.mk [c])))
  | _, _ => none

/-- `parse_cast` from `tempCodeRunnerFile.py` lines 26–37:

    try:
        data = json.loads(data_str)
        actor_names = [item['name'] for item in data[:max_items]]
        character_names = [item['character'] for item in data[:max_items]]
        all_names = actor_names + character_names
        return [name for name in all_names if name]
    except (json.JSONDecodeError, TypeError, KeyError):
        return []
-/
def parse_cast (decode : String → Option Json) (data_str : String)
    (max_items : Nat := 10) : List Json :=
  match decode data_str with
  | none => []
  | some data =>
    match pySliceIter data max_items with
    | none => []
    | some sliced =>
      match pyExtractAll "name" sliced with
      | none => []
      | some actor_names =>
        match pyExtractAll "character" sliced with
        | none => []
        | some character_names =>
          (actor_names ++ character_names).filter pyTruthy

/-- `parse_cast` applied to a DataFrame cell that may be `NaN`. -/
def parse_cast_cell (decode : String → Option Json) :
    Option String → Nat → List Json
  | none, _ => []
  | some s, m => parse_cast decode s m

/-! Spec-side vocabulary for the Record Normalizer claim, written from
the specification's words ("a list of objects each bearing a `name`
field", "the ordered sequence of those `name` values"). -/

/-- Spec: an object bearing a `name` field. -/
def isNamedObject (j : Json) : Bool :=
  (pyGetItemStr "name" j).isSome

/-- Spec: the decoded value is a list of objects each bearing a `name`
field. -/
def decodesToNamedList : Json → Bool
  | Json.arr items => items.all isNamedObject
  | _ => false

/-- Spec: the ordered sequence of the `name` values of a decoded list,
preserving source order and duplicates. -/
def namesOfSpec : Json → List Json
  | Json.arr items =>
    items.map (fun it => (pyGetItemStr "name" it).getD Json.null)
  | _ => []

/-! ## Upsert Batcher (`tempCodeRunnerFile.py` lines 105–119) -/

/-- One `client.upsert(collection_name=..., points=batch_points, wait=True)`
submission: the submitted chunk and the acknowledgment wait flag. -/
structure UpsertCall (α : Type) where
  pts : List α
  wait : Bool
deriving DecidableEq

/-- `BATCH_SIZE = 100` from `tempCodeRunnerFile.py` line 107. -/
def BATCH_SIZE : Nat := 100

/-- Python `range(0, stop, step)` for a positive `step`:
`[0, step, 2*step, ...]` with `⌈stop/step⌉` elements. -/
def pyRangeStep (stop step : Nat) : List Nat :=
  (List.range ((stop + step - 1) / step)).map (· * step)

/-- Python slice `xs[i:j]` for `0 ≤ i ≤ j` (clamped at the end, as in
Python). -/
def pySlice {α : Type} (xs : List α) (i j : Nat) : List α :=
  (xs.drop i).take (j - i)

/-- The upload loop of `tempCodeRunnerFile.py` lines 109–117:

    for i in range(0, len(points), BATCH_SIZE):
        end_index = min(i + BATCH_SIZE, len(points))
        batch_points = points[i:end_index]
        client.upsert(..., points=batch_points, wait=True)

The returned list holds the submissions in the (sequential) order the
loop issues them. -/
def uploadBatches {α : Type} (points : List α) : List (UpsertCall α) :=
  (pyRangeStep points.length BATCH_SIZE).map (fun i =>
    ⟨pySlice points i (min (i + BATCH_SIZE) points.length), true⟩)

/-! ## Rows, cleaning, and the Document Composer -/

/-- One row of the source CSV (after the credits merge, for the batch
variant; `title` is the merged `title_x` there).  `Option` marks cells
that pandas may read as `NaN`/missing; the source's `fillna` converts
some of them to definite strings before use. -/
structure RawRow where
  id : Int
  title : Option String
  overview : Option String
  genres : Option String
  keywords : Option String
  cast : Option String
  vote_average : Option Rat
  release_date : Option String

/-- `fillna('')` applied to one string cell. -/
def fillna (s : Option String) : String := s.getD ""

/-- pandas string addition on cells: `NaN` propagates through `+`
(`NaN + s = NaN`), otherwise ordinary concatenation. -/
def pdAdd : Option String → Option String → Option String
  | some a, some b => some (a ++ b)
  | _, _ => none

/-- The string elements of a parsed name list; `none` models the
`TypeError` that `' '.join` raises on a non-string element. -/
def pyStrList : List Json → Option (List String)
  | [] => some []
  | j :: rest =>
    match j with
    | Json.str s => (pyStrList rest).map (s :: ·)
    | _ => none

/-- `' '.join(x)` over a parsed name list. -/
def pyJoinSpace (l : List Json) : Option String :=
  (pyStrList l).map (String.intercalate " ")

/-- `df['genres_list']` for one row. -/
def genresList (decode : String → Option Json) (r : RawRow) : List Json :=
  parse_json_field_cell decode r.genres

/-- `df['keywords_list']` for one row. -/
def keywordsList (decode : String → Option Json) (r : RawRow) : List Json :=
  parse_json_field_cell decode r.keywords

/-- `df['cast_list']` for one row (batch variant, default limit 10). -/
def castList (decode : String → Option Json) (r : RawRow) : List Json :=
  parse_cast_cell decode r.cast 10

/-- `search_text` from `app.py` lines 63–68, per row:

    df['title'] + ". " + df['overview'] + ". " +
    df['genres_list'].apply(lambda x: ' '.join(x)) + ". " +
    df['keywords_list'].apply(lambda x: ' '.join(x))

`overview` was `fillna('')`-ed (line 55); `title` was not, so a missing
title propagates `NaN` through every `+`. -/
def appSearchText (decode : String → Option Json) (r : RawRow) :
    Option String :=
  pdAdd (pdAdd (pdAdd (pdAdd (pdAdd (pdAdd
    r.title (some ". "))
    (some (fillna r.overview))) (some ". "))
    (pyJoinSpace (genresList decode r))) (some ". "))
    (pyJoinSpace (keywordsList decode r))

/-- `search_text` from `tempCodeRunnerFile.py` lines 70–78, per row
(title and cast each repeated for boosting; `title_x` not `fillna`-ed). -/
def tempSearchText (decode : String → Option Json) (r : RawRow) :
    Option String :=
  pdAdd (pdAdd (pdAdd (pdAdd (pdAdd (pdAdd (pdAdd (pdAdd (pdAdd (pdAdd
    (pdAdd (pdAdd
    r.title (some ". ")) r.title) (some ". "))
    (pyJoinSpace (castList decode r))) (some ". "))
    (pyJoinSpace (castList decode r))) (some ". "))
    (some (fillna r.overview))) (some ". "))
    (pyJoinSpace (genresList decode r))) (some ". "))
    (pyJoinSpace (keywordsList decode r))

/-! ## Point Builder -/

/-- The payload dict attached to each `PointStruct`. -/
structure Payload where
  title : Option String
  description : String
  genres : List Json
  rating : Rat
  release_date : Option String

/-- `pd.notnull` on a possibly-missing numeric cell. -/
def pd_notnull : Option Rat → Bool
  | none => false
  | some _ => true

/-- Rating coercion, `app.py` line 75 and `tempCodeRunnerFile.py` line 88:

    rating = float(row["vote_average"]) if pd.notnull(row["vote_average"]) else 0.0

`float` on an already-numeric value is the identity in this model. -/
def buildRating (va : Option Rat) : Rat :=
  if pd_notnull va then va.getD 0 else 0

/-- `pd.notnull` on a definite string: always `True`. -/
def pd_notnull_str (_s : String) : Bool := true

/-- `tempCodeRunnerFile.py` line 89:

    release_date = row["release_date"] if pd.notnull(row["release_date"]) and row["release_date"] else None

After the `fillna('')` of line 60 the cell is a definite string, so the
condition reduces to the string's truthiness (non-emptiness). -/
def tempReleaseDate (r : RawRow) : Option String :=
  let s := fillna r.release_date
  if pd_notnull_str s && !s.isEmpty then some s else none

/-- The payload built by the `app.py` point loop (lines 77–89).  The
release-date entry is the post-`fillna` string: a missing or empty source
date yields the empty string, not `None`. -/
def appPayload (decode : String → Option Json) (r : RawRow) : Payload :=
  ⟨r.title, fillna r.overview, genresList decode r,
   buildRating r.vote_average, some (fillna r.release_date)⟩

/-- The payload built by the `tempCodeRunnerFile.py` point loop (lines
87–103): a missing or empty release date becomes `None`. -/
def tempPayload (decode : String → Option Json) (r : RawRow) : Payload :=
  ⟨r.title, fillna r.overview, genresList decode r,
   buildRating r.vote_average, tempReleaseDate r⟩

/-! ## Query Service and store model -/

/-- The collection name used by both variants. -/
def collection_name : String := "movie_recommender_tmdb"

/-- One `client.search` request: collection, query vector, result limit. -/
structure SearchCall where
  collection : String
  vector : List Rat
  limit : Nat

/-- The query handler of `app.py` lines 100–109:

    query = st.text_input("Enter your movie idea:", "")
    if st.button("Find Recommendations") and query:
        query_vector = model.encode(query).tolist()
        results = client.search(collection_name=..., query_vector=query_vector, limit=10)

A search is issued only when the button is pressed and the query string
is truthy (non-empty); otherwise the block is skipped — a no-op, not an
error.  The result lists the search calls issued. -/
def queryCalls (encode : String → List Rat) (buttonPressed : Bool)
    (query : String) : List SearchCall :=
  if buttonPressed && !query.isEmpty then
    [⟨collection_name, encode query, 10⟩]
  else []

/-- The year rendering of `app.py` line 116: parenthesized 4-character
prefix when `payload.get('release_date')` is truthy, else the empty
string.  The argument models the payload's release-date entry: `none`
for a missing key, `some none` for a stored `None`, `some (some s)` for
a stored string (`dict.get` maps the first two to Python `None`). -/
def renderYear (rd : Option (Option String)) : String :=
  match rd.getD none with
  | some s => if !s.isEmpty then "(" ++ s.take 4 ++ ")" else ""
  | none => ""

/-- A stored point: identifier, embedding vector, payload. -/
structure StoredPoint where
  id : Int
  vector : List Rat
  payload : Payload

/-- The vector-store client operations the repository invokes. -/
inductive ClientOp where
  | createCollection (name : String) (dim : Nat)
  | upsert (name : String) (pts : List StoredPoint) (wait : Bool)
  | search (name : String) (queryVector : List Rat) (limit : Nat)

/-- Store state: named collections of stored points. -/
structure Store where
  collections : List (String × List StoredPoint)

/-- Upsert of one point into a collection: overwrite by identifier when
present, else append (insert-or-overwrite, last write wins). -/
def upsertPoint (col : List StoredPoint) (p : StoredPoint) :
    List StoredPoint :=
  if col.any (fun q => q.id == p.id) then
    col.map (fun q => if q.id == p.id then p else q)
  else col ++ [p]

/-- Black-box semantics of the store client, per the spec's interface:
collection creation adds an empty collection when absent, upsert
overwrites/inserts by identifier, search reads without mutating. -/
def applyOp (st : Store) : ClientOp → Store
  | ClientOp.createCollection n _ =>
    if st.collections.any (fun c => c.1 == n) then st
    else ⟨st.collections ++ [(n, [])]⟩
  | ClientOp.upsert n ps _ =>
    ⟨st.collections.map (fun c =>
      if c.1 == n then (c.1, ps.foldl upsertPoint c.2) else c)⟩
  | ClientOp.search _ _ _ => st

/-- The client operations issued while handling one query
(`app.py` lines 102–109). -/
def queryOps (encode : String → List Rat) (buttonPressed : Bool)
    (query : String) : List ClientOp :=
  (queryCalls encode buttonPressed query).map
    (fun c => ClientOp.search c.collection c.vector c.limit)

/-- The client operations issued by the `app.py` ingestion block (lines
41–98): create the collection when absent, then one bulk upsert with
`wait=True`. -/
def appIngestOps (collectionExists : Bool) (pts : List StoredPoint) :
    List ClientOp :=
  (if collectionExists then []
   else [ClientOp.createCollection collection_name 384])
  ++ [ClientOp.upsert collection_name pts true]

/-- Does an operation kind mutate the store? -/
def isMutation : ClientOp → Bool
  | ClientOp.createCollection _ _ => true
  | ClientOp.upsert _ _ _ => true
  | ClientOp.search _ _ _ => false

/-! ## Concrete inputs used by counterexamples and witnesses -/

/-- A decoder that fails on every string (models `json.loads` on inputs
that are not valid JSON). -/
def decodeNone : String → Option Json := fun _ => none

/-- The JSON text of the end-to-end example's genres column. -/
def genresJson42 : String := "[\x7b\"name\":\"Sci-Fi\"\x7d]"

/-- A decoder for the end-to-end example: decodes the example's two JSON
strings and nothing else. -/
def decodeEx : String → Option Json := fun s =>
  if s = genresJson42 then
    some (Json.arr [Json.obj [("name", Json.str "Sci-Fi")]])
  else if s = "[]" then some (Json.arr [])
  else none

/-- The end-to-end example row of the specification. -/
def row42 : RawRow :=
  ⟨42, some "Nova", some "A ship drifts", some genresJson42, some "[]",
   none, none, some ""⟩

/-- A row whose release-date cell holds the empty string. -/
def rowEmptyDate : RawRow :=
  ⟨7, some "T", some "", none, none, none, none, some ""⟩

/-- A row with a present rating and a present non-empty release date. -/
def rowDated : RawRow :=
  ⟨3, some "T", none, none, none, none, some 7, some "2009-12-10"⟩

/-- A row whose title cell is missing (`NaN`). -/
def rowNoTitle : RawRow :=
  ⟨1, none, some "An overview", none, none, none, none, none⟩

/-- A row whose every text field is empty or missing. -/
def rowEmptyAll : RawRow :=
  ⟨2, some "", some "", none, none, none, none, none⟩

/-- The JSON text of a two-entry cast column. -/
def castJson : String :=
  "[\x7b\"name\":\"A\",\"character\":\"X\"\x7d,\x7b\"name\":\"\",\"character\":\"Y\"\x7d]"

/-- A decoder for the cast example. -/
def decodeCast : String → Option Json := fun s =>
  if s = castJson then
    some (Json.arr
      [Json.obj [("name", Json.str "A"), ("character", Json.str "X")],
       Json.obj [("name", Json.str ""), ("character", Json.str "Y")]])
  else none

/-- The store with no collections. -/
def emptyStore : Store := ⟨[]⟩

/-! ## Sanity lemmas used by several claim proofs -/

theorem pyGetItemStr_isSome_eq (it : Json) :
    (pyGetItemStr "name" it).isSome = isNamedObject it := rfl

theorem pyExtractAll_eq (key : String) (items : List Json) :
    pyExtractAll key items =
      if items.all (fun it => (pyGetItemStr key it).isSome)
      then some (items.map (fun it => (pyGetItemStr key it).getD Json.null))
      else none := by
  induction items with
  | nil => rfl
  | cons it rest ih =>
    cases h : pyGetItemStr key it with
    | none => simp [pyExtractAll, h]
    | some v =>
      by_cases hall : rest.all (fun it => (pyGetItemStr key it).isSome) <;>
        simp [pyExtractAll, h, ih, hall]

/-- C1: for every input string given to `parse_json_field`: if the string
is not valid JSON (`decode` fails), or the decoded value is not a list of
objects each bearing a `name` field (wrong type or missing key anywhere in
the list), the result is the empty list — and, the function being total,
no exception escapes; otherwise the result is the ordered sequence of the
`name` values, preserving source order and duplicates. -/
theorem C1_parse_json_field_contract (decode : String → Option Json)
    (s : String) :
    parse_json_field decode s =
      match decode s with
      | some d => if decodesToNamedList d then namesOfSpec d else []
      | none => [] := by
  cases hd : decode s with
  | none => simp [parse_json_field, hd]
  | some d =>
    cases d with
    | null => simp [parse_json_field, hd, pyIterate, decodesToNamedList]
    | bool b => simp [parse_json_field, hd, pyIterate, decodesToNamedList]
    | num q => simp [parse_json_field, hd, pyIterate, decodesToNamedList]
    | str s' =>
      cases hc : s'.data with
      | nil =>
        simp [parse_json_field, hd, pyIterate, hc, pyExtractAll,
          decodesToNamedList]
      | cons c cs =>
        simp [parse_json_field, hd, pyIterate, hc, pyExtractAll,
          pyGetItemStr, decodesToNamedList]
    | obj kvs =>
      cases kvs with
      | nil =>
        simp [parse_json_field, hd, pyIterate, pyExtractAll,
          decodesToNamedList]
      | cons kv rest =>
        simp [parse_json_field, hd, pyIterate, pyExtractAll,
          pyGetItemStr, decodesToNamedList]
    | arr items =>
      have hdn : decodesToNamedList (Json.arr items)
          = items.all (fun it => (pyGetItemStr "name" it).isSome) := rfl
      simp only [parse_json_field, hd, pyIterate, pyExtractAll_eq, hdn,
        namesOfSpec]
      by_cases hall : items.all (fun it => (pyGetItemStr "name" it).isSome)
      · simp only [hall, if_true]
      · simp only [Bool.not_eq_true] at hall
        simp only [hall, Bool.false_eq_true, if_false]

theorem filter_pyTruthy_map_str (l : List String) :
    (l.map Json.str).filter pyTruthy
      = (l.filter (fun n => !n.isEmpty)).map Json.str := by
  induction l with
  | nil => rfl
  | cons a l ih =>
    by_cases h : a.isEmpty <;>
      simp [List.filter_cons, pyTruthy, h, ih]

/-- C6: for every input string given to `parse_cast` with configurable
limit `N` (defaulting to 10 in the source): a decoding failure yields the
empty list; a decoded value that is not a list yields the empty list; a
missing `name` or `character` key (or non-object entry) among the first
`N` entries yields the empty list; and on a successful parse whose first
`N` entries carry string `name` and `character` values, the result is the
actor names of those entries followed by their character names, with all
empty-string entries dropped, in source order. -/
theorem C6_parse_cast_contract (decode : String → Option Json) (s : String)
    (N : Nat) :
    (decode s = none → parse_cast decode s N = [])
  ∧ (∀ d, decode s = some d → (∀ xs, d ≠ Json.arr xs) →
      parse_cast decode s N = [])
  ∧ (∀ items, decode s = some (Json.arr items) →
      (pyExtractAll "name" (items.take N) = none ∨
       pyExtractAll "character" (items.take N) = none) →
      parse_cast decode s N = [])
  ∧ (∀ (items : List Json) (actors characters : List String),
      decode s = some (Json.arr items) →
      pyExtractAll "name" (items.take N) = some (actors.map Json.str) →
      pyExtractAll "character" (items.take N) = some (characters.map Json.str) →
      parse_cast decode s N =
        ((actors ++ characters).filter (fun n => !n.isEmpty)).map Json.str) := by
  refine ⟨fun h => by simp [parse_cast, h], fun d hd hne => ?_,
    fun items hd hor => ?_, fun items actors characters hd hn hc => ?_⟩
  · cases d with
    | null => simp [parse_cast, hd, pySliceIter]
    | bool b => simp [parse_cast, hd, pySliceIter]
    | num q => simp [parse_cast, hd, pySliceIter]
    | obj kvs => simp [parse_cast, hd, pySliceIter]
    | str s' =>
      cases hc : s'.data.take N with
      | nil => simp [parse_cast, hd, pySliceIter, hc, pyExtractAll]
      | cons c cs =>
        simp [parse_cast, hd, pySliceIter, hc, pyExtractAll, pyGetItemStr]
    | arr xs => exact absurd rfl (hne xs)
  · rcases hor with h | h
    · simp [parse_cast, hd, pySliceIter, h]
    · cases hn : pyExtractAll "name" (items.take N) with
      | none => simp [parse_cast, hd, pySliceIter, hn]
      | some aas => simp [parse_cast, hd, pySliceIter, hn, h]
  · simp [parse_cast, hd, pySliceIter, hn, hc, ← List.map_append,
      filter_pyTruthy_map_str]

theorem pyRangeStep_pos (stop : Nat) (h : 0 < stop) :
    pyRangeStep stop 100
      = 0 :: (pyRangeStep (stop - 100) 100).map (· + 100) := by
  have hc : (stop + 100 - 1) / 100 = (stop - 100 + 100 - 1) / 100 + 1 := by
    omega
  simp only [pyRangeStep, hc, List.range_succ_eq_map, List.map_cons,
    List.map_map, Nat.zero_mul]
  exact congrArg (List.cons 0)
    (List.map_congr_left fun k _ => by simp only [Function.comp_apply]; omega)

theorem uploadBatches_length {α : Type} (points : List α) :
    (uploadBatches points).length
      = (points.length + BATCH_SIZE - 1) / BATCH_SIZE := by
  simp [uploadBatches, pyRangeStep]

theorem uploadBatches_sizes {α : Type} (points : List α) :
    ∀ c ∈ uploadBatches points,
      c.pts.length ≤ BATCH_SIZE ∧ c.wait = true := by
  intro c hc
  simp only [uploadBatches, List.mem_map] at hc
  obtain ⟨i, _, rfl⟩ := hc
  refine ⟨?_, rfl⟩
  simp only [pySlice, List.length_take, List.length_drop, BATCH_SIZE]
  omega

theorem pySlice_head {α : Type} (points : List α) :
    pySlice points 0 (min (0 + 100) points.length) = points.take 100 := by
  simp only [pySlice, List.drop_zero, Nat.zero_add, Nat.sub_zero]
  rcases Nat.le_total points.length 100 with h | h
  · rw [Nat.min_eq_right h, List.take_length, List.take_of_length_le h]
  · rw [Nat.min_eq_left h]

theorem pySlice_shift {α : Type} (points : List α) (i : Nat) :
    pySlice points (i + 100) (min (i + 100 + 100) points.length)
      = pySlice (points.drop 100) i (min (i + 100) (points.length - 100)) := by
  have hd : (points.drop 100).drop i = points.drop (i + 100) := by
    rw [List.drop_drop]
    congr 1
    omega
  simp only [pySlice, hd]
  congr 1
  omega

theorem uploadBatches_join_aux {α : Type} (n : Nat) :
    ∀ points : List α, points.length ≤ n →
      ((uploadBatches points).map UpsertCall.pts).flatten = points := by
  induction n with
  | zero =>
    intro points hp
    have h : points = [] := List.eq_nil_of_length_eq_zero (Nat.le_zero.mp hp)
    subst h
    simp [uploadBatches, pyRangeStep, BATCH_SIZE]
  | succ n ih =>
    intro points hp
    rcases Nat.eq_zero_or_pos points.length with h0 | hpos
    · have h : points = [] := List.eq_nil_of_length_eq_zero h0
      subst h
      simp [uploadBatches, pyRangeStep, BATCH_SIZE]
    · have hB : BATCH_SIZE = 100 := rfl
      have htail := ih (points.drop 100)
        (by simp only [List.length_drop]; omega)
      simp only [uploadBatches, hB, List.length_drop, List.map_map] at htail ⊢
      have hfun :
          ((UpsertCall.pts ∘ fun i =>
              (⟨pySlice points i (min (i + 100) points.length), true⟩ :
                UpsertCall α)) ∘ fun x => x + 100)
            = (UpsertCall.pts ∘ fun i =>
              (⟨pySlice (points.drop 100) i
                  (min (i + 100) (points.length - 100)), true⟩ :
                UpsertCall α)) := by
        funext i
        simp only [Function.comp_apply]
        rw [pySlice_shift]
      rw [pyRangeStep_pos points.length hpos]
      simp only [List.map_cons, List.map_map, List.flatten_cons,
        Function.comp_apply]
      rw [pySlice_head, hfun, htail]
      exact List.take_append_drop 100 points

theorem uploadBatches_join {α : Type} (points : List α) :
    ((uploadBatches points).map UpsertCall.pts).flatten = points :=
  uploadBatches_join_aux points.length points le_rfl

set_option maxRecDepth 40000 in
/-- C2: for every ordered sequence of `N` storage points and batch size
`B = BATCH_SIZE = 100`, the upload loop issues exactly `⌈N/B⌉` sequential
upsert submissions (here `(N + B - 1) / B` in natural division), each with
the acknowledgment wait flag set, each submitted chunk of size at most
`B`, the chunks contiguous slices covering every point exactly once in the
original order (their concatenation in submission order is the input);
in particular 250 points yield 3 submissions of sizes 100, 100, 50.
Sequentiality is by construction: the loop is synchronous, and the list
holds the submissions in issue order. -/
theorem C2_upsert_batching {α : Type} (points : List α) :
    (uploadBatches points).length
        = (points.length + BATCH_SIZE - 1) / BATCH_SIZE
  ∧ (∀ c ∈ uploadBatches points, c.pts.length ≤ BATCH_SIZE ∧ c.wait = true)
  ∧ ((uploadBatches points).map UpsertCall.pts).flatten = points
  ∧ ((uploadBatches (List.range 250)).map (fun c => c.pts.length))
        = [100, 100, 50] :=
  ⟨uploadBatches_length points, uploadBatches_sizes points,
   uploadBatches_join points, by decide⟩

/-- Witness for C2 at a concrete input: the single batch of a 3-point
upload is within the size bound and has the wait flag set. -/
theorem C2_upsert_batching_witness :
    (⟨[0, 1, 2], true⟩ : UpsertCall Nat).pts.length ≤ BATCH_SIZE
      ∧ (⟨[0, 1, 2], true⟩ : UpsertCall Nat).wait = true :=
  (C2_upsert_batching [0, 1, 2]).2.1 ⟨[0, 1, 2], true⟩ (by decide)

/-! ## Claims about the Point Builder, Composer, Query Service, store -/

/-- C3 counterexample: the claim fails on the demo-variant Point Builder —
for a record whose release-date field is the empty string, `app.py`
stores the empty string itself in the payload, not a null/absent
marker. -/
theorem C3_counterexample :
    (appPayload decodeNone rowEmptyDate).release_date = some ""
      ∧ (appPayload decodeNone rowEmptyDate).release_date ≠ none :=
  ⟨rfl, Option.some_ne_none ""⟩

/-- C3 amended: the batch-variant Point Builder (`tempCodeRunnerFile.py`)
stores the explicit null marker for a null or empty release date and
passes a non-empty date through unchanged; the demo-variant Point Builder
(`app.py`) normalizes a null date to the empty string and stores the
(possibly empty) string itself, so there null/empty dates are not
distinguishable from empty strings. -/
theorem C3_release_date_amended (decode : String → Option Json)
    (r : RawRow) :
    ((r.release_date = none ∨ r.release_date = some "") →
        (tempPayload decode r).release_date = none
      ∧ (appPayload decode r).release_date = some "")
  ∧ (∀ s, s ≠ "" → r.release_date = some s →
        (tempPayload decode r).release_date = some s
      ∧ (appPayload decode r).release_date = some s) := by
  have he : ("" : String).isEmpty = true := rfl
  constructor
  · rintro (h | h) <;>
      simp [tempPayload, appPayload, tempReleaseDate, fillna,
        pd_notnull_str, h, he]
  · intro s hs h
    have hne : s.isEmpty = false := by
      cases hemp : s.isEmpty
      · rfl
      · exact absurd ((String.isEmpty_iff s).mp hemp) hs
    simp [tempPayload, appPayload, tempReleaseDate, fillna,
      pd_notnull_str, h, hne]

/-- Witness for the amended C3 at a concrete non-empty date. -/
theorem C3_release_date_amended_witness :
    (tempPayload decodeNone rowDated).release_date = some "2009-12-10"
      ∧ (appPayload decodeNone rowDated).release_date = some "2009-12-10" :=
  (C3_release_date_amended decodeNone rowDated).2 "2009-12-10"
    (by decide) rfl

/-- C4: for every raw record, the built payload's rating (a 64-bit float
in the source, a rational in this model) equals the source rating when it
is present and not null, and equals 0.0 when it is null/missing; the
payload field is total (of type `Rat`), so no missing-value marker can
appear in it.  Holds for both Point Builder variants. -/
theorem C4_rating_coercion (decode : String → Option Json) (r : RawRow) :
    (∀ q, r.vote_average = some q →
        (appPayload decode r).rating = q
      ∧ (tempPayload decode r).rating = q)
  ∧ (r.vote_average = none →
        (appPayload decode r).rating = 0
      ∧ (tempPayload decode r).rating = 0) := by
  constructor
  · intro q h
    simp [appPayload, tempPayload, buildRating, pd_notnull, h]
  · intro h
    simp [appPayload, tempPayload, buildRating, pd_notnull, h]

/-- Witness for C4 at a concrete rated row. -/
theorem C4_rating_coercion_witness :
    (appPayload decodeNone rowDated).rating = 7
      ∧ (tempPayload decodeNone rowDated).rating = 7 :=
  (C4_rating_coercion decodeNone rowDated).1 7 rfl

/-- C5 counterexample: the claim fails at its own example row — the
`app.py` pipeline it describes stores the empty string, not null, in the
payload's release-date field. -/
theorem C5_counterexample :
    (appPayload decodeEx row42).release_date = some ""
      ∧ (appPayload decodeEx row42).release_date ≠ none :=
  ⟨rfl, Option.some_ne_none ""⟩

/-- C5 amended: for the example input row (id 42, title "Nova", overview
"A ship drifts", genres the Sci-Fi singleton, keywords the empty list,
null vote_average, empty release_date), the `app.py` pipeline produces
normalized genres `["Sci-Fi"]` and keywords `[]`, the search document
`"Nova. A ship drifts. Sci-Fi. "`, and a payload with title "Nova",
description "A ship drifts", rating 0.0, genres `["Sci-Fi"]` — and
release date `""` (the empty string), not null. -/
theorem C5_end_to_end_amended :
    genresList decodeEx row42 = [Json.str "Sci-Fi"]
  ∧ keywordsList decodeEx row42 = []
  ∧ appSearchText decodeEx row42 = some "Nova. A ship drifts. Sci-Fi. "
  ∧ appPayload decodeEx row42 =
      ⟨some "Nova", "A ship drifts", [Json.str "Sci-Fi"], 0, some ""⟩ :=
  ⟨rfl, rfl, rfl, rfl⟩

/-- C7 counterexample: the claim fails on both composer variants — a
record with a missing/null title yields an undefined (`NaN`) search
document, because neither variant applies `fillna` to the title column
before concatenation. -/
theorem C7_counterexample :
    appSearchText decodeNone rowNoTitle = none
      ∧ tempSearchText decodeNone rowNoTitle = none :=
  ⟨rfl, rfl⟩

/-- C7 amended: the Document Composer yields a defined string whenever
the record's title is present and the parsed name lists contain only
strings (a missing overview is treated as the empty string; all-empty
fields degrade to punctuation/whitespace); a missing or null title,
however, propagates the missing marker and the document is undefined.
Both composer variants behave this way. -/
theorem C7_composer_amended (decode : String → Option Json) (r : RawRow) :
    (r.title = none →
        appSearchText decode r = none ∧ tempSearchText decode r = none)
  ∧ (∀ t g k, r.title = some t →
      pyJoinSpace (genresList decode r) = some g →
      pyJoinSpace (keywordsList decode r) = some k →
      appSearchText decode r
        = some (t ++ ". " ++ fillna r.overview ++ ". " ++ g ++ ". " ++ k))
  ∧ (∀ t c g k, r.title = some t →
      pyJoinSpace (castList decode r) = some c →
      pyJoinSpace (genresList decode r) = some g →
      pyJoinSpace (keywordsList decode r) = some k →
      tempSearchText decode r
        = some (t ++ ". " ++ t ++ ". " ++ c ++ ". " ++ c ++ ". "
            ++ fillna r.overview ++ ". " ++ g ++ ". " ++ k)) := by
  refine ⟨fun h => ⟨?_, ?_⟩, fun t g k ht hg hk => ?_,
    fun t c g k ht hc hg hk => ?_⟩
  · simp [appSearchText, h, pdAdd]
  · simp [tempSearchText, h, pdAdd]
  · simp [appSearchText, ht, hg, hk, pdAdd]
  · simp [tempSearchText, ht, hc, hg, hk, pdAdd]

/-- Witness for the amended C7: with every text field empty the document
is still defined, degrading to separators. -/
theorem C7_composer_amended_witness :
    appSearchText decodeNone rowEmptyAll = some ". . . " :=
  ((C7_composer_amended decodeNone rowEmptyAll).2.1 "" "" ""
    rfl rfl rfl).trans rfl

/-- C8: for every query submission with empty query text, the Query
Service issues no search at all (the handler's call list is empty — a
no-op, not an error); and whenever a search is issued, the query text
was non-empty. -/
theorem C8_empty_query_noop (encode : String → List Rat) (b : Bool)
    (q : String) :
    (q = "" → queryCalls encode b q = [])
  ∧ (queryCalls encode b q ≠ [] → q ≠ "") := by
  have hemp : ("" : String).isEmpty = true := rfl
  constructor
  · rintro rfl
    simp [queryCalls, hemp]
  · intro h hq
    subst hq
    exact h (by simp [queryCalls, hemp])

/-- Witness for C8: the empty query issues no search. -/
theorem C8_empty_query_noop_witness :
    queryCalls (fun _ => []) true "" = [] :=
  (C8_empty_query_noop (fun _ => []) true "").1 rfl

/-- C9 (implicit): the Query Service renders no year when the result
payload's release-date entry is missing, stored `None`, or the empty
string, and renders exactly the parenthesized first 4 characters of any
non-empty stored string; in particular the display cannot distinguish an
empty-string date from an absent or null one. -/
theorem C9_year_rendering (s : String) :
    renderYear none = ""
  ∧ renderYear (some none) = ""
  ∧ renderYear (some (some "")) = ""
  ∧ (s ≠ "" → renderYear (some (some s)) = "(" ++ s.take 4 ++ ")")
  ∧ renderYear (some (some "")) = renderYear none
  ∧ renderYear (some (some "")) = renderYear (some none) := by
  refine ⟨rfl, rfl, rfl, fun hs => ?_, rfl, rfl⟩
  have hne : s.isEmpty = false := by
    cases hemp : s.isEmpty
    · rfl
    · exact absurd ((String.isEmpty_iff s).mp hemp) hs
  simp [renderYear, hne]

/-- Witness for C9 at a concrete date string. -/
theorem C9_year_rendering_witness :
    renderYear (some (some "2009-12-10")) = "(" ++ "2009-12-10".take 4 ++ ")" :=
  (C9_year_rendering "2009-12-10").2.2.2.1 (by decide)

/-- C10 (implicit): the Query Service is read-only — handling a query
issues only search operations and leaves the store (all collections,
their point identifiers, vectors and payloads) unchanged; search never
mutates, and every operation the ingestion block issues is a collection
creation or an upsert, the only mutating operation kinds. -/
theorem C10_query_readonly (st : Store) (encode : String → List Rat)
    (b : Bool) (q : String) (ex : Bool) (pts : List StoredPoint) :
    (queryOps encode b q).foldl applyOp st = st
  ∧ (∀ op, isMutation op = false → applyOp st op = st)
  ∧ (∀ op ∈ queryOps encode b q, isMutation op = false)
  ∧ (∀ op ∈ appIngestOps ex pts, isMutation op = true) := by
  refine ⟨?_, ?_, ?_, ?_⟩
  · by_cases h : b && !q.isEmpty <;>
      simp [queryOps, queryCalls, h, applyOp]
  · intro op hop
    cases op with
    | createCollection n d => simp [isMutation] at hop
    | upsert n ps w => simp [isMutation] at hop
    | search n v l => rfl
  · intro op hop
    by_cases h : b && !q.isEmpty
    · simp [queryOps, queryCalls, h] at hop
      subst hop
      rfl
    · simp [queryOps, queryCalls, h] at hop
  · intro op hop
    cases ex with
    | true =>
      simp [appIngestOps] at hop
      subst hop
      rfl
    | false =>
      simp [appIngestOps] at hop
      rcases hop with h | h <;> (subst h; rfl)

/-- Witness for C10: a concrete query leaves the empty store unchanged,
and its single issued operation is non-mutating. -/
theorem C10_query_readonly_witness :
    (queryOps (fun _ => []) true "space").foldl applyOp emptyStore
        = emptyStore
      ∧ isMutation (ClientOp.search collection_name [] 10) = false :=
  ⟨(C10_query_readonly emptyStore (fun _ => []) true "space" true []).1,
   (C10_query_readonly emptyStore (fun _ => []) true "space" true []).2.2.1
     (ClientOp.search collection_name [] 10)
     (List.mem_singleton_self _)⟩

/-- Witness for C6: a two-entry cast list parses to the actor names
followed by the character names, with the empty actor name dropped. -/
theorem C6_parse_cast_contract_witness :
    parse_cast decodeCast castJson 10
      = [Json.str "A", Json.str "X", Json.str "Y"] :=
  ((C6_parse_cast_contract decodeCast castJson 10).2.2.2
    [Json.obj [("name", Json.str "A"), ("character", Json.str "X")],
     Json.obj [("name", Json.str ""), ("character", Json.str "Y")]]
    ["A", ""] ["X", "Y"] rfl rfl rfl).trans rfl
